import Mathlib

/-!
Shallow embedding of the risk-assessment pipeline of the repository
(src/gemini_play): the two LLM stages (`extract_keywords`, `rank_and_select`
in llm_service.py), the repository client (`search_risks`,
`get_controls_for_risks`, `_sanitize_keyword`, `_validate_risk_id` in
db_service.py), the proposal formatter (`_format_proposal_text` in
llm_service.py) and the orchestrator (`assess_proposal` in risk_engine.py).

The external collaborators (Gemini generation service, database REST
service) are modelled as environment-chosen replies; every pipeline stage is
a deterministic Lean function of the proposal and of those replies,
mirroring the Python control flow line by line.  JSON values carried by the
replies are modelled by the `JsonVal` inductive; numbers are rationals.
-/

set_option maxRecDepth 4000

namespace GeminiPlay

/-- A parsed JSON value, as produced by Python json.loads.  An `obj`
represents a parsed Python dict, so its keys are pairwise distinct by
construction of the parser (later duplicate keys overwrite earlier ones
before the dict reaches the pipeline). -/
inductive JsonVal where
  | null
  | bool (b : Bool)
  | num (q : ℚ)
  | str (s : String)
  | arr (xs : List JsonVal)
  | obj (kvs : List (String × JsonVal))

/-- config.py: TOP_N_RISKS = 3. -/
def TOP_N_RISKS : Nat := 3

/-- config.py: MAX_CANDIDATE_RISKS = 30. -/
def MAX_CANDIDATE_RISKS : Nat := 30

/-- risk_engine.py line 132: the fixed fallback keyword set. -/
def FALLBACK_KEYWORDS : List String :=
  ["data", "model", "security", "privacy", "governance"]

/-- First value bound to key `k` in an association list (the lookup of a
parsed Python dict; unambiguous because parsed dicts have distinct keys). -/
def assocGet (kvs : List (String × JsonVal)) (k : String) : Option JsonVal :=
  (kvs.find? (fun kv => kv.1 == k)).map (fun kv => kv.2)

/-- Python substring test `pat in s` for strings. -/
def strHasSub (s pat : String) : Bool :=
  decide (pat.toList <:+: s.toList)

/-- Python membership test `k in v` for a string key `k` against a JSON
value: key lookup for dicts, element equality for lists (a non-string
element never equals a string), substring test for strings, and a TypeError
for the non-iterable values. -/
def pyContainsKey (v : JsonVal) (k : String) : Except String Bool :=
  match v with
  | .obj kvs => .ok (kvs.any (fun kv => kv.1 == k))
  | .arr xs => .ok (xs.any (fun x => match x with | .str s => s == k | _ => false))
  | .str s => .ok (strHasSub s k)
  | _ => .error "TypeError: argument of type is not iterable"

/-- Python indexing `v[k]` with a string key: dict lookup (KeyError when the
key is absent), TypeError for every other value. -/
def pyIndexStr (v : JsonVal) (k : String) : Except String JsonVal :=
  match v with
  | .obj kvs =>
      match assocGet kvs k with
      | some x => .ok x
      | none => .error ("KeyError: " ++ k)
  | .str _ => .error "TypeError: string indices must be integers"
  | .arr _ => .error "TypeError: list indices must be integers or slices, not str"
  | _ => .error "TypeError: object is not subscriptable"

/-- Python `len(v)`: defined for strings, lists and dicts, TypeError
otherwise. -/
def pyLen (v : JsonVal) : Except String Nat :=
  match v with
  | .str s => .ok s.toList.length
  | .arr xs => .ok xs.length
  | .obj kvs => .ok kvs.length
  | _ => .error "TypeError: object has no len()"

/-- Python iteration `for x in v`: the elements of a list, the characters of
a string (as one-character strings), the keys of a dict; TypeError
otherwise. -/
def pyIter (v : JsonVal) : Except String (List JsonVal) :=
  match v with
  | .str s => .ok (s.toList.map (fun c => .str (String.mk [c])))
  | .arr xs => .ok xs
  | .obj kvs => .ok (kvs.map (fun kv => .str kv.1))
  | _ => .error "TypeError: object is not iterable"

/-- Unicode whitespace as matched by Python regex class backslash-s and by
str.strip, by code point. -/
def pyIsSpace (c : Char) : Bool :=
  let n := c.toNat
  (0x9 ≤ n && n ≤ 0xd) || n = 0x20 || (0x1c ≤ n && n ≤ 0x1f) || n = 0x85 ||
  n = 0xa0 || n = 0x1680 || (0x2000 ≤ n && n ≤ 0x200a) || n = 0x2028 ||
  n = 0x2029 || n = 0x202f || n = 0x205f || n = 0x3000

/-- ASCII letter or digit, the a-zA-Z0-9 part of the character class in
db_service.py line 171. -/
def isAsciiAlphaNum (c : Char) : Bool :=
  (0x61 ≤ c.toNat && c.toNat ≤ 0x7a) || (0x41 ≤ c.toNat && c.toNat ≤ 0x5a) ||
  (0x30 ≤ c.toNat && c.toNat ≤ 0x39)

/-- The characters kept by `_sanitize_keyword`: the complement of the
removed class in re.sub of db_service.py line 171. -/
def sanitizeKeep (c : Char) : Bool :=
  isAsciiAlphaNum c || pyIsSpace c || c == '-' || c == '_'

def digitsToNat (ds : List Char) : Nat :=
  ds.foldl (fun a c => 10 * a + (c.toNat - 0x30)) 0

def isDigit09 (c : Char) : Bool :=
  0x30 ≤ c.toNat && c.toNat ≤ 0x39

/-- Model of Python float(string): surrounding whitespace stripped, optional
sign, decimal digits with an optional fractional part.  Exponent forms,
inf/nan spellings and digit underscores are not modelled; no theorem below
depends on which strings convert, only the non-string cases are load
bearing. -/
def parsePyFloat (s : String) : Option ℚ :=
  let cs := ((s.toList.dropWhile pyIsSpace).reverse.dropWhile pyIsSpace).reverse
  let (sign, cs) : ℚ × List Char :=
    match cs with
    | '-' :: rest => (-1, rest)
    | '+' :: rest => (1, rest)
    | _ => (1, cs)
  let ip := cs.takeWhile isDigit09
  let rest := cs.dropWhile isDigit09
  match rest with
  | [] => if ip.isEmpty then none else some (sign * digitsToNat ip)
  | '.' :: fr =>
      if fr.all isDigit09 && !(ip.isEmpty && fr.isEmpty) then
        some (sign * ((digitsToNat ip : ℚ) + (digitsToNat fr : ℚ) / (10 : ℚ) ^ fr.length))
      else none
  | _ => none

/-- Python float(v) on a JSON value: numbers and booleans convert, strings
convert when they spell a float literal, None, lists and dicts raise. -/
def pyFloat (v : JsonVal) : Except String ℚ :=
  match v with
  | .num q => .ok q
  | .bool b => .ok (if b then 1 else 0)
  | .str s =>
      match parsePyFloat s with
      | some q => .ok q
      | none => .error ("ValueError: could not convert string to float: " ++ s)
  | .null => .error "TypeError: float argument must be a string or a real number, not NoneType"
  | .arr _ => .error "TypeError: float argument must be a string or a real number, not list"
  | .obj _ => .error "TypeError: float argument must be a string or a real number, not dict"

/-! ## Data model (models.py) -/

/-- models.py Control.  control_description is optional. -/
structure Control where
  control_id : String
  control_title : String
  control_description : Option String
deriving DecidableEq

/-- models.py Risk. -/
structure Risk where
  risk_id : String
  risk_title : String
  risk_description : String
deriving DecidableEq

/-- models.py RiskAssessment.  The explanation is the reasoning value taken
from the ranking reply; it is kept as the raw JSON value because the
pipeline never validates its type (pydantic coercion of non-string values
to the str field is version dependent and not modelled; every claim below
is insensitive to it). -/
structure RiskAssessment where
  risk_id : String
  risk_title : String
  risk_description : String
  explanation : JsonVal
  controls : List Control

/-- models.py RiskAssessmentResult.  assessment_id (a fresh uuid) and
timestamp (assessment time) are nondeterministic identity fields outside
the shallow embedding; no claim mentions them. -/
structure RiskAssessmentResult where
  risks : List RiskAssessment

/-- models.py KeywordExtractionResult.  The keywords are the parsed JSON
list exactly as returned (llm_service.py line 73); element types are not
validated by the code. -/
structure KeywordExtractionResult where
  keywords : List JsonVal
  confidence : ℚ

/-- One validated entry of the ranking reply: after validation the risk_id
value is necessarily the string id of a candidate (llm_service.py lines
158-161), and the reasoning value is whatever JSON the reply carried. -/
structure RankedRisk where
  risk_id : String
  reasoning : JsonVal

/-! ## Collaborator behaviours -/

/-- Outcome of one generate_content call followed by json.loads on its
text: the call raised, or the text was not valid JSON, or it parsed. -/
inductive GenOutcome where
  | raised (msg : String)
  | notJson
  | json (v : JsonVal)

/-- One result item of the database search endpoint, as consumed by
db_service.py lines 56-65: the optional type tag (a non-string JSON value
never equals the string risk and behaves like an absent tag) and the id,
title and description fields.  A reply whose items lack one of the three
required fields raises KeyError in the client; such replies are modelled
by the error case of the reply. -/
structure SearchItem where
  itemType : Option String
  id : String
  title : String
  descr : String
deriving DecidableEq

/-- One relationship record of the database relationships endpoint, as
consumed by db_service.py lines 107-117 through relationship.get.
Non-string JSON values in source_id or relationship_type never equal the
compared strings and behave like absent fields. -/
structure Relationship where
  source_id : Option String
  relationship_type : Option String
  target_id : Option String
deriving DecidableEq

/-! ## GeminiLLMService (llm_service.py) -/

/-- llm_service.py lines 37-93, extract_keywords, as a function of the
generation reply.  Mirrors the code order: JSON parse (JSONDecodeError is
converted to the fixed message, lines 87-90), presence check of both
fields (line 70), indexing, float conversion of confidence (line 74), then
the non-empty-list check on keywords (line 77).  Any raised error
propagates with its message (lines 91-93 re-raise). -/
def extract_keywords (outcome : GenOutcome) : Except String KeywordExtractionResult :=
  match outcome with
  | .raised msg => .error msg
  | .notJson => .error "Invalid JSON response from LLM"
  | .json v =>
    match pyContainsKey v "keywords", pyContainsKey v "confidence" with
    | .error e, _ => .error e
    | .ok _, .error e => .error e
    | .ok hasK, .ok hasC =>
      if !(hasK && hasC) then .error "Invalid response format from LLM"
      else
        match pyIndexStr v "keywords" with
        | .error e => .error e
        | .ok kw =>
          match pyIndexStr v "confidence" with
          | .error e => .error e
          | .ok confV =>
            match pyFloat confV with
            | .error e => .error e
            | .ok conf =>
              match kw with
              | .arr xs =>
                  if xs.isEmpty then .error "No keywords extracted"
                  else .ok ⟨xs, conf⟩
              | _ => .error "No keywords extracted"

/-- llm_service.py lines 154-161: the per-entry validation of the ranking
reply.  Presence of risk_id and reasoning (with Python membership
semantics on arbitrary entry values), then the anti-hallucination check of
the risk_id value against the candidate list by string equality (a
non-string risk_id value equals no candidate id). -/
def validateRankedEntry (risks : List Risk) (entry : JsonVal) : Except String RankedRisk :=
  match pyContainsKey entry "risk_id", pyContainsKey entry "reasoning" with
  | .error e, _ => .error e
  | .ok _, .error e => .error e
  | .ok hasId, .ok hasRsn =>
    if !(hasId && hasRsn) then .error "Invalid risk format in LLM response"
    else
      match pyIndexStr entry "risk_id" with
      | .error e => .error e
      | .ok (.str s) =>
          if risks.any (fun r => r.risk_id == s) then
            match pyIndexStr entry "reasoning" with
            | .error e => .error e
            | .ok rsn => .ok ⟨s, rsn⟩
          else .error ("LLM selected invalid risk_id: " ++ s)
      | .ok _ => .error "LLM selected invalid risk_id: (non-string identifier)"

/-- The for loop of llm_service.py lines 154-161 over the reply entries:
entries are validated in order and the first failure aborts the stage. -/
def eachValidate (risks : List Risk) : List JsonVal → Except String (List RankedRisk)
  | [] => .ok []
  | e :: es =>
    match validateRankedEntry risks e with
    | .error msg => .error msg
    | .ok rr =>
      match eachValidate risks es with
      | .error msg => .error msg
      | .ok rest => .ok (rr :: rest)

/-- llm_service.py lines 131-165 after the truncation: reply parse, the
risks field presence check (line 144), the count check against TOP_N_RISKS
(line 150), then the per-entry validation loop. -/
def rank_core (risks : List Risk) (outcome : GenOutcome) : Except String (List RankedRisk) :=
  match outcome with
  | .raised msg => .error msg
  | .notJson => .error "Invalid JSON response from LLM"
  | .json v =>
    match pyContainsKey v "risks" with
    | .error e => .error e
    | .ok hasR =>
      if !hasR then .error "Invalid response format from LLM"
      else
        match pyIndexStr v "risks" with
        | .error e => .error e
        | .ok ranked =>
          match pyLen ranked with
          | .error e => .error e
          | .ok n =>
            if n ≠ TOP_N_RISKS then
              .error ("Expected " ++ toString TOP_N_RISKS ++ " risks, got " ++ toString n)
            else
              match pyIter ranked with
              | .error e => .error e
              | .ok entries => eachValidate risks entries

/-- llm_service.py lines 95-165, rank_and_select: the candidate list is
truncated to MAX_CANDIDATE_RISKS (lines 108-110) before both the prompt
and the validation use it. -/
def rank_and_select (risksIn : List Risk) (outcome : GenOutcome) : Except String (List RankedRisk) :=
  rank_core (risksIn.take MAX_CANDIDATE_RISKS) outcome

/-! ## DatabaseServiceClient (db_service.py) -/

/-- db_service.py lines 166-173, _sanitize_keyword: re.sub removes every
character outside a-zA-Z0-9, whitespace, hyphen and underscore, then the
result is truncated to its first 100 characters. -/
def sanitize_keyword (s : String) : String :=
  String.mk ((s.toList.filter sanitizeKeep).take 100)

/-- The list comprehension of db_service.py line 39: every keyword is
sanitized before any request is issued; re.sub raises TypeError on a
non-string keyword. -/
def sanitizeAll : List JsonVal → Except String (List String)
  | [] => .ok []
  | k :: ks =>
    match k with
    | .str s =>
      match sanitizeAll ks with
      | .error e => .error e
      | .ok rest => .ok (sanitize_keyword s :: rest)
    | _ => .error "TypeError: expected string or bytes-like object"

/-- The result-merging body of db_service.py lines 56-65: only items tagged
risk are kept, and an id already collected is skipped (first occurrence
wins, dict insertion order preserved). -/
def mergeItems (acc : List Risk) (items : List SearchItem) : List Risk :=
  items.foldl
    (fun a it =>
      if it.itemType == some "risk" && a.all (fun r => r.risk_id != it.id) then
        a ++ [⟨it.id, it.title, it.descr⟩]
      else a)
    acc

/-- Outcome of one search_risks call: the returned (or raised) value and
the list of q parameters actually sent to the search endpoint, in order. -/
structure SearchRun where
  result : Except String (List Risk)
  sentQueries : List String

/-- The request loop of db_service.py lines 43-65: one GET per sanitized
keyword, a request failure raising immediately (wrapped at lines 71-73).
The environment supplies one reply per GET; a missing entry behaves as an
empty result list. -/
def searchLoop : List String → List (Except String (List SearchItem)) → List Risk → List String → SearchRun
  | [], _, acc, sent => ⟨.ok acc, sent⟩
  | q :: qs, replies, acc, sent =>
    match replies.headD (.ok []) with
    | .error e => ⟨.error ("Database service unavailable: " ++ e), sent ++ [q]⟩
    | .ok items => searchLoop qs replies.tail (mergeItems acc items) (sent ++ [q])

/-- db_service.py lines 29-76, search_risks: sanitize all keywords, then
query the endpoint with the first 3 of them only, merging the results. -/
def search_risks (keywords : List JsonVal) (replies : List (Except String (List SearchItem))) : SearchRun :=
  match sanitizeAll keywords with
  | .error e => ⟨.error e, []⟩
  | .ok sanitized => searchLoop (sanitized.take 3) replies [] []

/-- db_service.py lines 175-181, _validate_risk_id: the anchored regex
R backslash-dot [A-Z]+ backslash-dot [0-9]+ against the whole id.  The
regex dollar anchor of Python also matches just before one trailing
newline; riskIdCore is the core match and the disjunct models the
trailing-newline acceptance. -/
def riskIdCore (cs : List Char) : Bool :=
  match cs with
  | 'R' :: '.' :: rest =>
    let us := rest.takeWhile (fun c => 0x41 ≤ c.toNat && c.toNat ≤ 0x5a)
    let r1 := rest.dropWhile (fun c => 0x41 ≤ c.toNat && c.toNat ≤ 0x5a)
    match us, r1 with
    | [], _ => false
    | _ :: _, '.' :: r2 =>
      let ds := r2.takeWhile isDigit09
      let r3 := r2.dropWhile isDigit09
      !ds.isEmpty && r3.isEmpty
    | _, _ => false
  | _ => false

def matchesRiskIdPattern (s : String) : Bool :=
  riskIdCore s.toList ||
    (s.toList.getLast? == some '\n' && riskIdCore s.toList.dropLast)

def validate_risk_id (rid : String) : Except String String :=
  if matchesRiskIdPattern rid then .ok rid
  else .error ("Invalid risk ID format: " ++ rid)

/-- The list comprehension of db_service.py line 88: every id is validated
before the request; the first malformed id raises. -/
def validateAll : List String → Except String (List String)
  | [] => .ok []
  | rid :: rids =>
    match validate_risk_id rid with
    | .error e => .error e
    | .ok v =>
      match validateAll rids with
      | .error e => .error e
      | .ok rest => .ok (v :: rest)

/-- The inner scan of db_service.py lines 106-117: the controls attached to
one risk id are built from the relationships whose source is that id with
type risk_control and a truthy target id. -/
def controlsForRisk (data : List Relationship) (rid : String) : List Control :=
  data.foldl
    (fun acc rel =>
      if rel.source_id == some rid && rel.relationship_type == some "risk_control" then
        match rel.target_id with
        | some cid =>
          if cid == "" then acc
          else acc ++ [⟨cid, "Control " ++ cid, some ("Control for risk " ++ rid)⟩]
        | none => acc
      else acc)
    []

/-- Python dict assignment controls_by_risk[rid] = v: replace the binding
when the key exists (keeping its position), append otherwise. -/
def assocSet (m : List (String × List Control)) (k : String) (v : List Control) : List (String × List Control) :=
  if m.any (fun kv => kv.1 == k) then
    m.map (fun kv => if kv.1 == k then (k, v) else kv)
  else m ++ [(k, v)]

/-- dict.get(rid, []) on the controls mapping. -/
def assocGetD (m : List (String × List Control)) (k : String) : List Control :=
  ((m.find? (fun kv => kv.1 == k)).map (fun kv => kv.2)).getD []

/-- db_service.py lines 78-127, get_controls_for_risks: validate every id,
issue the relationships request (a request failure is wrapped at lines
122-124), then build the per-id control lists. -/
def get_controls_for_risks (risk_ids : List String) (reply : Except String (List Relationship)) :
    Except String (List (String × List Control)) :=
  match validateAll risk_ids with
  | .error e => .error e
  | .ok validated =>
    match reply with
    | .error e => .error ("Database service unavailable: " ++ e)
    | .ok data =>
      .ok (validated.foldl (fun acc rid => assocSet acc rid (controlsForRisk data rid)) [])

/-! ## Proposal formatter (llm_service.py lines 175-212) -/

/-- The data_sources value: the code branches on isinstance(list)
(llm_service.py lines 188-193). -/
inductive DataSources where
  | ofList (xs : List String)
  | ofString (s : String)
deriving DecidableEq

/-- A proposal record as consumed by _format_proposal_text: the schema
fields of models.py ProposalSchema, each possibly absent.  A field holding
a value of an unrelated type is outside the schema and outside this model;
additional_fields is a dict iterated in insertion order, an absent or
empty dict contributing nothing either way. -/
structure Proposal where
  proposal_title : Option String := none
  description : Option String := none
  technical_approach : Option String := none
  data_sources : Option DataSources := none
  deployment : Option String := none
  data_governance : Option String := none
  model_governance : Option String := none
  security_measures : Option String := none
  additional_fields : List (String × String) := []
deriving DecidableEq

/-- One labelled block of llm_service.py lines 179-205: the field
contributes a part exactly when its value is truthy (absent and empty
strings are skipped by the if proposal.get checks). -/
def fieldPart (label : String) : Option String → List String
  | some s => if s == "" then [] else [label ++ ": " ++ s]
  | none => []

/-- Lines 188-193: the data sources block, list values joined by a comma
and space, other values interpolated directly; the surrounding truthiness
check skips an empty list and an empty string. -/
def dataSourcesPart : Option DataSources → List String
  | some (.ofList xs) =>
    if xs.isEmpty then [] else ["Data Sources: " ++ String.intercalate ", " xs]
  | some (.ofString s) =>
    if s == "" then [] else ["Data Sources: " ++ s]
  | none => []

/-- llm_service.py lines 175-212, _format_proposal_text: the parts list is
built field by field in the fixed source order and joined by a blank line. -/
def format_proposal_text (p : Proposal) : String :=
  let parts :=
    fieldPart "Title" p.proposal_title ++
    fieldPart "Description" p.description ++
    fieldPart "Technical Approach" p.technical_approach ++
    dataSourcesPart p.data_sources ++
    fieldPart "Deployment" p.deployment ++
    fieldPart "Data Governance" p.data_governance ++
    fieldPart "Model Governance" p.model_governance ++
    fieldPart "Security Measures" p.security_measures ++
    p.additional_fields.map (fun kv => kv.1 ++ ": " ++ kv.2)
  String.intercalate "\n\n" parts

/-! ## RiskAssessmentEngine (risk_engine.py) -/

/-- The environment: one behaviour of the two collaborators for one run.
kwOutcome and rankOutcome are the replies of the two generation calls;
searchReplies and fallbackReplies supply one reply per GET of the first
and of the fallback search_risks call; controlsReply is the relationships
reply. -/
structure Env where
  kwOutcome : GenOutcome
  searchReplies : List (Except String (List SearchItem))
  fallbackReplies : List (Except String (List SearchItem))
  rankOutcome : GenOutcome
  controlsReply : Except String (List Relationship)

/-- The outbound calls the orchestrator issues, in order: the keyword
extraction call (with the formatted proposal text), each search_risks call
(with the keyword list passed to it), the ranking call (with the candidate
list passed to it) and the controls lookup. -/
inductive Call where
  | extract (proposalText : String)
  | search (keywords : List JsonVal)
  | rank (candidates : List Risk)
  | controls (risk_ids : List String)

/-- risk_engine.py lines 128-137, _get_fallback_risks: the fallback search;
its own exceptions are swallowed and an empty list returned. -/
def get_fallback_risks (replies : List (Except String (List SearchItem))) : List Risk :=
  match (search_risks (FALLBACK_KEYWORDS.map JsonVal.str) replies).result with
  | .ok rs => rs
  | .error _ => []

/-- The error sentinel of risk_engine.py lines 116-125. -/
def errorAssessment (msg : String) : RiskAssessment :=
  { risk_id := "ERROR"
    risk_title := "Assessment Error"
    risk_description := "An error occurred during risk assessment"
    explanation := .str ("Error: " ++ msg)
    controls := [] }

/-- risk_engine.py lines 116-125: the degraded result body, TOP_N_RISKS
identical sentinels. -/
def errorAssessments (msg : String) : List RiskAssessment :=
  List.replicate TOP_N_RISKS (errorAssessment msg)

/-- The padding sentinel of risk_engine.py lines 100-106. -/
def naAssessment : RiskAssessment :=
  { risk_id := "N/A"
    risk_title := "Assessment Error"
    risk_description := "Could not assess this risk"
    explanation := .str "Assessment failed"
    controls := [] }

/-- The join of risk_engine.py lines 64-93: each ranked entry is matched
back to its candidate details by id (first match; an absent match is
logged and the entry dropped) and paired with its enriched controls. -/
def buildAssessments (cands : List Risk) (cbr : List (String × List Control))
    (ranked : List RankedRisk) : List RiskAssessment :=
  ranked.filterMap
    (fun rr =>
      (cands.find? (fun r => r.risk_id == rr.risk_id)).map
        (fun rd =>
          { risk_id := rr.risk_id
            risk_title := rd.risk_title
            risk_description := rd.risk_description
            explanation := rr.reasoning
            controls := assocGetD cbr rr.risk_id }))

/-- The try body of risk_engine.py lines 36-111 with the calls it issues:
extraction, search (with the fallback retry of lines 48-51), ranking
(called unconditionally on whatever candidate list resulted), enrichment,
then the join and the padding of lines 96-106. -/
def assessStages (p : Proposal) (env : Env) : Except String (List RiskAssessment) × List Call :=
  let calls0 := [Call.extract (format_proposal_text p)]
  match extract_keywords env.kwOutcome with
  | .error e => (.error e, calls0)
  | .ok kw =>
    let calls1 := calls0 ++ [Call.search kw.keywords]
    match (search_risks kw.keywords env.searchReplies).result with
    | .error e => (.error e, calls1)
    | .ok cands0 =>
      let cands :=
        if cands0.isEmpty then get_fallback_risks env.fallbackReplies else cands0
      let calls2 :=
        if cands0.isEmpty then
          calls1 ++ [Call.search (FALLBACK_KEYWORDS.map JsonVal.str)]
        else calls1
      let calls3 := calls2 ++ [Call.rank cands]
      match rank_and_select cands env.rankOutcome with
      | .error e => (.error e, calls3)
      | .ok ranked =>
        let risk_ids := ranked.map (fun rr => rr.risk_id)
        let calls4 := calls3 ++ [Call.controls risk_ids]
        match get_controls_for_risks risk_ids env.controlsReply with
        | .error e => (.error e, calls4)
        | .ok cbr =>
          let assessments := buildAssessments cands cbr ranked
          (.ok (assessments ++ List.replicate (TOP_N_RISKS - assessments.length) naAssessment),
           calls4)

/-- risk_engine.py lines 26-126, assess_proposal: the stages inside the
try, with any stage error converted at the except boundary (lines 113-126)
into the uniform degraded result.  The function is total: no exception
reaches the caller. -/
def assess_proposal (p : Proposal) (env : Env) : RiskAssessmentResult × List Call :=
  match assessStages p env with
  | (.ok a, t) => (⟨a⟩, t)
  | (.error e, t) => (⟨errorAssessments e⟩, t)

/-! ## Spec-side formatter (spec section 4.1), for the refinement claim -/

/-- Python truthiness of an optional string field: present and non-empty. -/
def truthyStr : Option String → Bool
  | some s => !(s == "")
  | none => false

/-- Python truthiness of the optional data_sources value. -/
def dsTruthy : Option DataSources → Bool
  | some (.ofList xs) => !xs.isEmpty
  | some (.ofString s) => !(s == "")
  | none => false

/-- The rendering of a data sources value: list values joined by commas,
a plain value passed through. -/
def formatDataSources : DataSources → String
  | .ofList xs => String.intercalate ", " xs
  | .ofString s => s

/-- One block of the spec description of the formatter: a label, the
rendered value, and whether the field contributes a block. -/
structure SpecBlock where
  label : String
  text : String
  keep : Bool
deriving DecidableEq

/-- Modelled from the spec, section 4.1, amended on one point the code
forces: the blocks in the fixed priority order title, description,
technical approach, data sources (list values joined by commas),
deployment, data governance, model governance, security measures, then
the additional fields in their given order; a block is kept when its field
is present with a truthy (non-empty) value, additional fields
unconditionally. -/
def specBlocks (p : Proposal) : List SpecBlock :=
  [⟨"Title", p.proposal_title.getD "", truthyStr p.proposal_title⟩,
   ⟨"Description", p.description.getD "", truthyStr p.description⟩,
   ⟨"Technical Approach", p.technical_approach.getD "", truthyStr p.technical_approach⟩,
   ⟨"Data Sources", (p.data_sources.map formatDataSources).getD "", dsTruthy p.data_sources⟩,
   ⟨"Deployment", p.deployment.getD "", truthyStr p.deployment⟩,
   ⟨"Data Governance", p.data_governance.getD "", truthyStr p.data_governance⟩,
   ⟨"Model Governance", p.model_governance.getD "", truthyStr p.model_governance⟩,
   ⟨"Security Measures", p.security_measures.getD "", truthyStr p.security_measures⟩] ++
  p.additional_fields.map (fun kv => ⟨kv.1, kv.2, true⟩)

/-- The kept blocks, each as label colon space value. -/
def renderBlocks (bs : List SpecBlock) : List String :=
  bs.filterMap (fun b => if b.keep then some (b.label ++ ": " ++ b.text) else none)

/-- The spec-side formatter: the kept labelled blocks separated by a blank
line. -/
def spec_format_proposal_text (p : Proposal) : String :=
  String.intercalate "\n\n" (renderBlocks (specBlocks p))

/-! ## Concrete fixtures used by witnesses and counterexamples -/

def cxRiskA : Risk := ⟨"R.AIR.001", "Data poisoning", "Attackers manipulate training data"⟩

def cxRiskB : Risk := ⟨"R.AIR.002", "Model theft", "Adversaries copy the model"⟩

def rankEntry (rid rsn : String) : JsonVal :=
  .obj [("risk_id", .str rid), ("reasoning", .str rsn)]

/-- A keyword reply with one keyword and confidence 0.9. -/
def kwReplyOk : GenOutcome :=
  .json (.obj [("keywords", .arr [.str "data privacy"]), ("confidence", .num (9 / 10))])

/-- A valid ranking reply selecting A, B, A from the candidates. -/
def rankReplyDup : GenOutcome :=
  .json (.obj [("risks", .arr [rankEntry "R.AIR.001" "applies to the training data",
                               rankEntry "R.AIR.002" "the model is exposed",
                               rankEntry "R.AIR.001" "also applies at inference"])])

/-- A ranking reply with only two entries. -/
def rankReplyTwo : GenOutcome :=
  .json (.obj [("risks", .arr [rankEntry "R.AIR.001" "a", rankEntry "R.AIR.002" "b"])])

/-- A search reply carrying the two candidate risks. -/
def searchReplyAB : Except String (List SearchItem) :=
  .ok [⟨some "risk", "R.AIR.001", "Data poisoning", "Attackers manipulate training data"⟩,
       ⟨some "risk", "R.AIR.002", "Model theft", "Adversaries copy the model"⟩]

/-- A run in which everything succeeds and the ranking reply repeats a
candidate. -/
def envHappy : Env :=
  { kwOutcome := kwReplyOk
    searchReplies := [searchReplyAB]
    fallbackReplies := []
    rankOutcome := rankReplyDup
    controlsReply := .ok [⟨some "R.AIR.001", some "risk_control", some "C.AIIM.1"⟩] }

/-- A run in which both the keyword search and the fallback search return
zero candidates. -/
def envEmptySearch : Env :=
  { kwOutcome := kwReplyOk
    searchReplies := [.ok []]
    fallbackReplies := [.ok [], .ok [], .ok []]
    rankOutcome := .notJson
    controlsReply := .ok [] }

/-- A run that reaches the ranking stage and receives a two-entry reply. -/
def envRankTwo : Env :=
  { kwOutcome := kwReplyOk
    searchReplies := [searchReplyAB]
    fallbackReplies := []
    rankOutcome := rankReplyTwo
    controlsReply := .ok [] }

/-- A run whose first generation call raises. -/
def envRaised : Env :=
  { kwOutcome := .raised "upstream generation failure"
    searchReplies := []
    fallbackReplies := []
    rankOutcome := .notJson
    controlsReply := .ok [] }

/-- Thirty-one distinct candidates, to exercise the truncation bound. -/
def risks31 : List Risk :=
  (List.range 31).map (fun i => ⟨"R.AIR." ++ toString i, "title", "descr"⟩)

/-! ## Supporting lemmas -/

theorem assocGet_some_any {kvs : List (String × JsonVal)} {k : String} {v : JsonVal}
    (h : assocGet kvs k = some v) : kvs.any (fun kv => kv.1 == k) = true := by
  unfold assocGet at h
  cases hf : kvs.find? (fun kv => kv.1 == k) with
  | none => rw [hf] at h; simp at h
  | some kv =>
    have hp := List.find?_some hf
    have hm := List.mem_of_find?_eq_some hf
    exact List.any_eq_true.mpr ⟨kv, hm, hp⟩

theorem eachValidate_ok_length {risks : List Risk} :
    ∀ {es : List JsonVal} {out : List RankedRisk},
      eachValidate risks es = .ok out → out.length = es.length := by
  intro es
  induction es with
  | nil =>
    intro out h
    simp only [eachValidate] at h
    cases h
    rfl
  | cons e es ih =>
    intro out h
    simp only [eachValidate] at h
    cases hv : validateRankedEntry risks e with
    | error msg => rw [hv] at h; cases h
    | ok rr =>
      rw [hv] at h
      cases hr : eachValidate risks es with
      | error msg => rw [hr] at h; cases h
      | ok rest =>
        rw [hr] at h
        cases h
        simp [ih hr]

theorem validateRankedEntry_ok_mem {risks : List Risk} {entry : JsonVal} {rr : RankedRisk}
    (h : validateRankedEntry risks entry = .ok rr) :
    ∃ r ∈ risks, r.risk_id = rr.risk_id := by
  unfold validateRankedEntry at h
  split at h
  · cases h
  · cases h
  · split at h
    · cases h
    · split at h
      · cases h
      · next s heq =>
        split at h
        · next hany =>
          split at h
          · cases h
          · cases h
            obtain ⟨r, hm, hp⟩ := List.any_eq_true.mp hany
            exact ⟨r, hm, by simpa using hp⟩
        · cases h
      · cases h

theorem eachValidate_ok_mem {risks : List Risk} :
    ∀ {es : List JsonVal} {out : List RankedRisk},
      eachValidate risks es = .ok out →
      ∀ rr ∈ out, ∃ r ∈ risks, r.risk_id = rr.risk_id := by
  intro es
  induction es with
  | nil =>
    intro out h rr hrr
    simp only [eachValidate] at h
    cases h
    cases hrr
  | cons e es ih =>
    intro out h rr hrr
    simp only [eachValidate] at h
    cases hv : validateRankedEntry risks e with
    | error msg => rw [hv] at h; cases h
    | ok rr0 =>
      rw [hv] at h
      cases hr : eachValidate risks es with
      | error msg => rw [hr] at h; cases h
      | ok rest =>
        rw [hr] at h
        cases h
        rcases List.mem_cons.mp hrr with h0 | h0
        · exact h0 ▸ validateRankedEntry_ok_mem hv
        · exact ih hr rr h0

theorem pyIter_length {v : JsonVal} {n : Nat} {es : List JsonVal}
    (hl : pyLen v = .ok n) (hi : pyIter v = .ok es) : es.length = n := by
  cases v <;> simp [pyLen, pyIter] at hl hi <;> simp [← hl, ← hi]

theorem rank_core_ok_length {risks : List Risk} {outcome : GenOutcome} {l : List RankedRisk}
    (h : rank_core risks outcome = .ok l) : l.length = TOP_N_RISKS := by
  cases outcome with
  | raised msg => simp only [rank_core] at h; cases h
  | notJson => simp only [rank_core] at h; cases h
  | json v =>
    simp only [rank_core] at h
    cases hc : pyContainsKey v "risks" with
    | error e => rw [hc] at h; cases h
    | ok hasR =>
      rw [hc] at h
      dsimp only at h
      cases hasR with
      | false => cases h
      | true =>
        rw [Bool.not_true, if_neg (by simp)] at h
        cases hx : pyIndexStr v "risks" with
        | error e => rw [hx] at h; cases h
        | ok ranked =>
          rw [hx] at h
          dsimp only at h
          cases hl : pyLen ranked with
          | error e => rw [hl] at h; cases h
          | ok n =>
            rw [hl] at h
            dsimp only at h
            by_cases hn : n = TOP_N_RISKS
            · rw [if_neg (by simp [hn])] at h
              cases hi : pyIter ranked with
              | error e => rw [hi] at h; cases h
              | ok entries =>
                rw [hi] at h
                dsimp only at h
                calc l.length = entries.length := eachValidate_ok_length h
                  _ = n := pyIter_length hl hi
                  _ = TOP_N_RISKS := hn
            · rw [if_pos hn] at h; cases h

theorem rank_core_ok_mem {risks : List Risk} {outcome : GenOutcome} {l : List RankedRisk}
    (h : rank_core risks outcome = .ok l) :
    ∀ rr ∈ l, ∃ r ∈ risks, r.risk_id = rr.risk_id := by
  cases outcome with
  | raised msg => simp only [rank_core] at h; cases h
  | notJson => simp only [rank_core] at h; cases h
  | json v =>
    simp only [rank_core] at h
    cases hc : pyContainsKey v "risks" with
    | error e => rw [hc] at h; cases h
    | ok hasR =>
      rw [hc] at h
      dsimp only at h
      cases hasR with
      | false => cases h
      | true =>
        rw [Bool.not_true, if_neg (by simp)] at h
        cases hx : pyIndexStr v "risks" with
        | error e => rw [hx] at h; cases h
        | ok ranked =>
          rw [hx] at h
          dsimp only at h
          cases hl : pyLen ranked with
          | error e => rw [hl] at h; cases h
          | ok n =>
            rw [hl] at h
            dsimp only at h
            by_cases hn : n = TOP_N_RISKS
            · rw [if_neg (by simp [hn])] at h
              cases hi : pyIter ranked with
              | error e => rw [hi] at h; cases h
              | ok entries =>
                rw [hi] at h
                dsimp only at h
                exact eachValidate_ok_mem h
            · rw [if_pos hn] at h; cases h

theorem rank_ok_length {risksIn : List Risk} {outcome : GenOutcome} {l : List RankedRisk}
    (h : rank_and_select risksIn outcome = .ok l) : l.length = TOP_N_RISKS :=
  rank_core_ok_length h

theorem rank_ok_mem {risksIn : List Risk} {outcome : GenOutcome} {l : List RankedRisk}
    (h : rank_and_select risksIn outcome = .ok l) :
    ∀ rr ∈ l, ∃ r ∈ risksIn, r.risk_id = rr.risk_id := by
  intro rr hrr
  obtain ⟨r, hm, he⟩ := rank_core_ok_mem h rr hrr
  exact ⟨r, List.take_subset _ _ hm, he⟩

theorem rank_ok_mem_take {risksIn : List Risk} {outcome : GenOutcome} {l : List RankedRisk}
    (h : rank_and_select risksIn outcome = .ok l) :
    ∀ rr ∈ l, ∃ r ∈ risksIn.take MAX_CANDIDATE_RISKS, r.risk_id = rr.risk_id :=
  rank_core_ok_mem h

/-- On an empty candidate list no entry can pass the anti-hallucination
check, so validation of any entry fails. -/
theorem validateRankedEntry_nil_ne_ok (entry : JsonVal) (rr : RankedRisk) :
    validateRankedEntry [] entry ≠ .ok rr := by
  intro h
  obtain ⟨r, hm, _⟩ := validateRankedEntry_ok_mem h
  cases hm

/-- With an empty candidate list the validation loop fails on any non-empty
entry list. -/
theorem eachValidate_nil_ne_ok (e : JsonVal) (es : List JsonVal) (out : List RankedRisk) :
    eachValidate [] (e :: es) ≠ .ok out := by
  intro h
  simp only [eachValidate] at h
  cases hv : validateRankedEntry [] e with
  | error msg => rw [hv] at h; cases h
  | ok rr => exact validateRankedEntry_nil_ne_ok e rr hv

/-- llm_service.py can never return a successful ranking out of an empty
candidate list: the reply must contain exactly TOP_N_RISKS entries and each
must reference a candidate, which is impossible. -/
theorem rank_empty_ne_ok (outcome : GenOutcome) (l : List RankedRisk) :
    rank_and_select [] outcome ≠ .ok l := by
  intro h
  have hlen : l.length = TOP_N_RISKS := rank_ok_length h
  have := rank_ok_mem h
  cases l with
  | nil => simp [TOP_N_RISKS] at hlen
  | cons rr rest =>
    obtain ⟨r, hm, _⟩ := this rr (by simp)
    cases hm

theorem exists_error_of_ne_ok {α : Type} {x : Except String α} (h : ∀ a, x ≠ .ok a) :
    ∃ e, x = .error e :=
  match x, h with
  | .error e, _ => ⟨e, rfl⟩
  | .ok a, h => (h a rfl).elim

/-- The request loop sends the sanitized queries in order: the sent list is
always an initial segment of the query list (all of it when no request
fails). -/
theorem searchLoop_sent (qs : List String) :
    ∀ replies acc sent, ∃ k,
      (searchLoop qs replies acc sent).sentQueries = sent ++ qs.take k ∧ k ≤ qs.length := by
  induction qs with
  | nil =>
    intro replies acc sent
    exact ⟨0, by simp [searchLoop], by simp⟩
  | cons q qs ih =>
    intro replies acc sent
    simp only [searchLoop]
    cases h : replies.headD (.ok []) with
    | error e =>
      refine ⟨1, by simp, by simp⟩
    | ok items =>
      obtain ⟨k, hk, hk2⟩ := ih replies.tail (mergeItems acc items) (sent ++ [q])
      exact ⟨k + 1, by simp [hk, List.take_succ_cons], by simp; omega⟩

/-- Sanitization of a list of string keywords never raises and sanitizes
pointwise. -/
theorem sanitizeAll_strings (ks : List String) :
    sanitizeAll (ks.map JsonVal.str) = .ok (ks.map sanitize_keyword) := by
  induction ks with
  | nil => rfl
  | cons k ks ih => simp [sanitizeAll, ih]

theorem buildAssessments_length_le (cands : List Risk) (cbr : List (String × List Control))
    (ranked : List RankedRisk) :
    (buildAssessments cands cbr ranked).length ≤ ranked.length := by
  unfold buildAssessments
  exact List.length_filterMap_le _ _

/-- Every joined assessment carries the id of one of the candidates it was
joined against. -/
theorem buildAssessments_mem {cands : List Risk} {cbr : List (String × List Control)}
    {ranked : List RankedRisk} {a : RiskAssessment}
    (h : a ∈ buildAssessments cands cbr ranked) :
    ∃ r ∈ cands, r.risk_id = a.risk_id := by
  unfold buildAssessments at h
  obtain ⟨rr, _, hmap⟩ := List.mem_filterMap.mp h
  cases hf : cands.find? (fun r => r.risk_id == rr.risk_id) with
  | none => rw [hf] at hmap; cases hmap
  | some rd =>
    rw [hf] at hmap
    cases hmap
    exact ⟨rd, List.mem_of_find?_eq_some hf, by simpa using List.find?_some hf⟩

/-- Inversion of the successful orchestrator run: the final list is the
join over some candidate set (recorded in the ranking call of the trace)
padded with N/A sentinels, for a ranking that validated successfully. -/
theorem assessStages_ok_inv {p : Proposal} {env : Env} {a : List RiskAssessment} {t : List Call}
    (h : assessStages p env = (.ok a, t)) :
    ∃ cands cbr ranked,
      rank_and_select cands env.rankOutcome = .ok ranked ∧
      Call.rank cands ∈ t ∧
      a = buildAssessments cands cbr ranked ++
          List.replicate (TOP_N_RISKS - (buildAssessments cands cbr ranked).length) naAssessment := by
  unfold assessStages at h
  cases hkw : extract_keywords env.kwOutcome with
  | error e => rw [hkw] at h; simp at h
  | ok kw =>
    rw [hkw] at h
    dsimp only at h
    cases hs : (search_risks kw.keywords env.searchReplies).result with
    | error e => rw [hs] at h; simp at h
    | ok cands0 =>
      rw [hs] at h
      dsimp only at h
      cases hr : rank_and_select
          (if cands0.isEmpty then get_fallback_risks env.fallbackReplies else cands0)
          env.rankOutcome with
      | error e => rw [hr] at h; simp at h
      | ok ranked =>
        rw [hr] at h
        dsimp only at h
        cases hc : get_controls_for_risks (ranked.map (fun rr => rr.risk_id)) env.controlsReply with
        | error e => rw [hc] at h; simp at h
        | ok cbr =>
          rw [hc] at h
          dsimp only at h
          simp only [Prod.mk.injEq, Except.ok.injEq] at h
          obtain ⟨h1, h2⟩ := h
          refine ⟨_, cbr, ranked, hr, ?_, h1.symm⟩
          rw [← h2]
          split <;> simp

/-- Any stage error surfaces as the uniform degraded result body. -/
theorem assess_error_result {p : Proposal} {env : Env} {e : String} {t : List Call}
    (h : assessStages p env = (.error e, t)) :
    (assess_proposal p env).1.risks = errorAssessments e := by
  simp [assess_proposal, h]

/-- The same, from the first component only. -/
theorem assess_error_result_fst {p : Proposal} {env : Env} {e : String}
    (h : (assessStages p env).1 = .error e) :
    (assess_proposal p env).1.risks = errorAssessments e := by
  rcases hS : assessStages p env with ⟨res, t⟩
  rw [hS] at h
  dsimp only at h
  subst h
  simp [assess_proposal, hS]

/-- assess_proposal preserves the call trace of the stages. -/
theorem assess_trace_eq (p : Proposal) (env : Env) :
    (assess_proposal p env).2 = (assessStages p env).2 := by
  rcases hS : assessStages p env with ⟨res, t⟩
  cases res <;> simp [assess_proposal, hS]

/-- If the ranking reply makes rank_and_select fail with the same message
whatever the candidate list is, then any run that reaches the ranking call
fails with that message. -/
theorem assessStages_rank_error {p : Proposal} {env : Env} {m : String}
    (hall : ∀ cs, rank_and_select cs env.rankOutcome = .error m)
    (hreach : ∃ cs, Call.rank cs ∈ (assessStages p env).2) :
    (assessStages p env).1 = .error m := by
  obtain ⟨cs, hmem⟩ := hreach
  unfold assessStages at hmem ⊢
  cases hkw : extract_keywords env.kwOutcome with
  | error e => rw [hkw] at hmem; simp at hmem
  | ok kw =>
    rw [hkw] at hmem
    dsimp only at hmem ⊢
    cases hs : (search_risks kw.keywords env.searchReplies).result with
    | error e => rw [hs] at hmem; simp at hmem
    | ok cands0 =>
      dsimp only at hmem ⊢
      rw [hall]

/-- A ranking reply whose risks array does not have exactly TOP_N_RISKS
entries fails the count check with the same message whatever the candidate
list is. -/
theorem rank_count_mismatch {kvs : List (String × JsonVal)} {xs : List JsonVal}
    (hget : assocGet kvs "risks" = some (.arr xs)) (hne : xs.length ≠ TOP_N_RISKS) :
    ∀ cs, rank_and_select cs (.json (.obj kvs)) =
      .error ("Expected " ++ toString TOP_N_RISKS ++ " risks, got " ++ toString xs.length) := by
  intro cs
  have hc : pyContainsKey (.obj kvs) "risks" = .ok true := by
    simp only [pyContainsKey, assocGet_some_any hget]
  have hx : pyIndexStr (.obj kvs) "risks" = .ok (.arr xs) := by
    simp [pyIndexStr, hget]
  simp [rank_and_select, rank_core, hc, hx, pyLen, if_pos hne]

/-- The run on which both searches come back empty: the orchestrator still
issues the ranking call with the empty candidate list, and the run
degrades. -/
theorem assess_empty_candidates {p : Proposal} {env : Env} {kw : KeywordExtractionResult}
    (hkw : extract_keywords env.kwOutcome = .ok kw)
    (hs : (search_risks kw.keywords env.searchReplies).result = .ok [])
    (hf : get_fallback_risks env.fallbackReplies = []) :
    ∃ e, assessStages p env =
      (.error e, [Call.extract (format_proposal_text p), Call.search kw.keywords,
                  Call.search (FALLBACK_KEYWORDS.map JsonVal.str), Call.rank []]) := by
  obtain ⟨e, he⟩ := exists_error_of_ne_ok (fun l => rank_empty_ne_ok env.rankOutcome l)
  refine ⟨e, ?_⟩
  unfold assessStages
  rw [hkw]
  dsimp only
  rw [hs]
  dsimp only
  simp only [List.isEmpty_nil, if_true, hf, he]
  simp

/-- The queries sent by search_risks on string keywords are an initial
segment of the sanitized first-3 keyword list. -/
theorem search_risks_sent (ks : List String) (replies : List (Except String (List SearchItem))) :
    ∃ k, (search_risks (ks.map JsonVal.str) replies).sentQueries
        = ((ks.map sanitize_keyword).take 3).take k := by
  obtain ⟨k, hk, _⟩ := searchLoop_sent ((ks.map sanitize_keyword).take 3) replies [] []
  refine ⟨k, ?_⟩
  simp only [search_risks, sanitizeAll_strings]
  simpa using hk

theorem fieldPart_eq (label : String) (v : Option String) :
    fieldPart label v = if truthyStr v then [label ++ ": " ++ v.getD ""] else [] := by
  cases v with
  | none => rfl
  | some s => cases hs : s == "" <;> simp [fieldPart, truthyStr, hs]

theorem dataSourcesPart_eq (v : Option DataSources) :
    dataSourcesPart v =
      if dsTruthy v then ["Data Sources: " ++ (v.map formatDataSources).getD ""] else [] := by
  cases v with
  | none => rfl
  | some ds =>
    cases ds with
    | ofList xs => cases hx : xs.isEmpty <;> simp [dataSourcesPart, dsTruthy, formatDataSources, hx]
    | ofString s => cases hs : s == "" <;> simp [dataSourcesPart, dsTruthy, formatDataSources, hs]

theorem renderBlocks_cons (b : SpecBlock) (bs : List SpecBlock) :
    renderBlocks (b :: bs) =
      (if b.keep then [b.label ++ ": " ++ b.text] else []) ++ renderBlocks bs := by
  cases hb : b.keep <;> simp [renderBlocks, hb]

theorem renderBlocks_append (as bs : List SpecBlock) :
    renderBlocks (as ++ bs) = renderBlocks as ++ renderBlocks bs := by
  simp [renderBlocks]

theorem renderBlocks_additional (af : List (String × String)) :
    renderBlocks (af.map (fun kv => ⟨kv.1, kv.2, true⟩)) =
      af.map (fun kv => kv.1 ++ ": " ++ kv.2) := by
  induction af with
  | nil => rfl
  | cons kv af ih => simp [renderBlocks_cons, ih]

/-- Reduction of extract_keywords on a dict reply carrying both fields. -/
theorem extract_obj_red {kvs : List (String × JsonVal)} {kwv cv : JsonVal}
    (hk : assocGet kvs "keywords" = some kwv)
    (hc : assocGet kvs "confidence" = some cv) :
    extract_keywords (.json (.obj kvs)) =
      match pyFloat cv with
      | .error e => .error e
      | .ok conf =>
        match kwv with
        | .arr xs => if xs.isEmpty then .error "No keywords extracted" else .ok ⟨xs, conf⟩
        | _ => .error "No keywords extracted" := by
  have hkx : pyIndexStr (.obj kvs) "keywords" = .ok kwv := by simp [pyIndexStr, hk]
  have hcx : pyIndexStr (.obj kvs) "confidence" = .ok cv := by simp [pyIndexStr, hc]
  have hkc : pyContainsKey (.obj kvs) "keywords" = .ok true := by
    simp only [pyContainsKey, assocGet_some_any hk]
  have hcc : pyContainsKey (.obj kvs) "confidence" = .ok true := by
    simp only [pyContainsKey, assocGet_some_any hc]
  simp [extract_keywords, hkc, hcc, hkx, hcx]
  cases pyFloat cv <;> cases kwv <;> rfl

/-! ## Claims -/

/-- C1: for every proposal input and every behaviour of the LLM service
and repository collaborators (success, malformed replies, or raised
errors), assess_proposal returns a RiskAssessmentResult whose risks list
has length exactly TOP_N_RISKS: the success path pads short join results
with sentinel entries and the failure path builds exactly TOP_N_RISKS
sentinel entries. -/
theorem C1_result_length_top_n (p : Proposal) (env : Env) :
    ((assess_proposal p env).1).risks.length = TOP_N_RISKS := by
  rcases hS : assessStages p env with ⟨res, t⟩
  cases res with
  | error e => simp [assess_proposal, hS, errorAssessments]
  | ok a =>
    obtain ⟨cands, cbr, ranked, hr, _, ha⟩ := assessStages_ok_inv hS
    have h3 : ranked.length = TOP_N_RISKS := rank_ok_length hr
    have hle : (buildAssessments cands cbr ranked).length ≤ TOP_N_RISKS :=
      h3 ▸ buildAssessments_length_le cands cbr ranked
    subst ha
    simp [assess_proposal, hS]
    omega

/-- C2: a ranking reply referencing a risk_id outside the candidate list
passed to that same rank_and_select call never validates, so every
successful ranking only carries candidate ids; consequently every
non-sentinel entry of a returned result carries an id of the candidate set
supplied to the ranking call of that run. -/
theorem C2_anti_hallucination :
    (∀ (risks : List Risk) (outcome : GenOutcome) (ranked : List RankedRisk),
        rank_and_select risks outcome = .ok ranked →
        ∀ rr ∈ ranked, ∃ r ∈ risks, r.risk_id = rr.risk_id) ∧
    (∀ (p : Proposal) (env : Env) (a : RiskAssessment),
        a ∈ ((assess_proposal p env).1).risks →
        a.risk_id = "ERROR" ∨ a.risk_id = "N/A" ∨
        ∃ cands, Call.rank cands ∈ (assess_proposal p env).2 ∧
          ∃ r ∈ cands, r.risk_id = a.risk_id) := by
  constructor
  · intro risks outcome ranked h rr hrr
    exact rank_ok_mem h rr hrr
  · intro p env a ha
    rcases hS : assessStages p env with ⟨res, t⟩
    rw [assess_trace_eq, hS]
    cases res with
    | error e =>
      rw [show (assess_proposal p env).1 = ⟨errorAssessments e⟩ from by
        simp [assess_proposal, hS]] at ha
      have : a = errorAssessment e := List.eq_of_mem_replicate ha
      left
      rw [this]
      rfl
    | ok alist =>
      rw [show (assess_proposal p env).1 = ⟨alist⟩ from by simp [assess_proposal, hS]] at ha
      obtain ⟨cands, cbr, ranked, _, hmem, haeq⟩ := assessStages_ok_inv hS
      subst haeq
      rcases List.mem_append.mp ha with h1 | h1
      · obtain ⟨r, hrm, hre⟩ := buildAssessments_mem h1
        exact Or.inr (Or.inr ⟨cands, hmem, r, hrm, hre⟩)
      · have : a = naAssessment := List.eq_of_mem_replicate h1
        right; left
        rw [this]
        rfl

/-- C2 witness: in a concrete successful run over the two candidates, the
stage-level invariant instantiates to the first selected entry. -/
theorem C2_anti_hallucination_witness :
    ∃ r ∈ [cxRiskA, cxRiskB], r.risk_id =
      (⟨"R.AIR.001", .str "applies to the training data"⟩ : RankedRisk).risk_id :=
  C2_anti_hallucination.1 [cxRiskA, cxRiskB] rankReplyDup
    [⟨"R.AIR.001", .str "applies to the training data"⟩,
     ⟨"R.AIR.002", .str "the model is exposed"⟩,
     ⟨"R.AIR.001", .str "also applies at inference"⟩]
    (by rfl) _ (by simp)

/-- C3: every stage error is absorbed at the orchestrator boundary:
assess_proposal still returns a value, whose risks are exactly TOP_N_RISKS
identical sentinels with risk_id ERROR, the fixed title and description,
an explanation embedding the triggering error message, and no controls. -/
theorem C3_degraded_result (p : Proposal) (env : Env) (e : String) (t : List Call)
    (h : assessStages p env = (.error e, t)) :
    ((assess_proposal p env).1).risks =
      List.replicate TOP_N_RISKS
        { risk_id := "ERROR"
          risk_title := "Assessment Error"
          risk_description := "An error occurred during risk assessment"
          explanation := .str ("Error: " ++ e)
          controls := [] } := by
  rw [assess_error_result h]
  rfl

/-- C3 witness: a run whose first generation call raises degrades to the
three ERROR sentinels embedding that message. -/
theorem C3_degraded_result_witness :
    ((assess_proposal {} envRaised).1).risks =
      List.replicate TOP_N_RISKS
        { risk_id := "ERROR"
          risk_title := "Assessment Error"
          risk_description := "An error occurred during risk assessment"
          explanation := .str ("Error: " ++ "upstream generation failure")
          controls := [] } :=
  C3_degraded_result {} envRaised "upstream generation failure"
    [Call.extract ""] (by rfl)

/-- C4 counterexample: in a run where both the keyword search and the
fallback search return zero candidates, the orchestrator does NOT skip the
ranking stage: the trace shows the ranking call issued on the empty
candidate list, after exactly one fallback retry. -/
theorem C4_rank_called_on_empty_cex :
    Call.rank [] ∈ (assess_proposal {} envEmptySearch).2 ∧
    (assess_proposal {} envEmptySearch).2 =
      [Call.extract "", Call.search [.str "data privacy"],
       Call.search (FALLBACK_KEYWORDS.map JsonVal.str), Call.rank []] := by
  have h2 : (assess_proposal {} envEmptySearch).2 =
      [Call.extract "", Call.search [.str "data privacy"],
       Call.search (FALLBACK_KEYWORDS.map JsonVal.str), Call.rank []] := by rfl
  exact ⟨by rw [h2]; simp, h2⟩

/-- C4 amended: when the search over the extracted keywords returns zero
candidates the orchestrator retries exactly once with the fixed fallback
keyword set; if that also yields zero candidates the ranking stage is
nevertheless invoked with the empty candidate list, where it necessarily
fails validation, so the run degrades to the ERROR sentinels. -/
theorem C4_empty_candidates_amended (p : Proposal) (env : Env) (kw : KeywordExtractionResult)
    (hkw : extract_keywords env.kwOutcome = .ok kw)
    (hs : (search_risks kw.keywords env.searchReplies).result = .ok [])
    (hf : get_fallback_risks env.fallbackReplies = []) :
    ∃ e, ((assess_proposal p env).1).risks = List.replicate TOP_N_RISKS (errorAssessment e) ∧
      (assess_proposal p env).2 =
        [Call.extract (format_proposal_text p), Call.search kw.keywords,
         Call.search (FALLBACK_KEYWORDS.map JsonVal.str), Call.rank []] := by
  obtain ⟨e, he⟩ := assess_empty_candidates (p := p) hkw hs hf
  refine ⟨e, ?_, ?_⟩
  · rw [assess_error_result he]
    rfl
  · rw [assess_trace_eq, he]

/-- C4 witness: the concrete empty-search run instantiates the amended
claim. -/
theorem C4_empty_candidates_amended_witness :
    ∃ e, ((assess_proposal {} envEmptySearch).1).risks =
        List.replicate TOP_N_RISKS (errorAssessment e) ∧
      (assess_proposal {} envEmptySearch).2 =
        [Call.extract (format_proposal_text {}), Call.search [.str "data privacy"],
         Call.search (FALLBACK_KEYWORDS.map JsonVal.str), Call.rank []] :=
  C4_empty_candidates_amended {} envEmptySearch ⟨[.str "data privacy"], 9 / 10⟩
    (by rfl) (by rfl) (by rfl)

/-- C5: when the ranking reply parses as JSON with a risks array of length
different from TOP_N_RISKS, any run reaching the ranking stage fails it
with the count-mismatch message and the whole result degrades to exactly
TOP_N_RISKS ERROR sentinels embedding it. -/
theorem C5_count_mismatch (p : Proposal) (env : Env) (kvs : List (String × JsonVal))
    (xs : List JsonVal)
    (hout : env.rankOutcome = .json (.obj kvs))
    (hget : assocGet kvs "risks" = some (.arr xs))
    (hne : xs.length ≠ TOP_N_RISKS)
    (hreach : ∃ cs, Call.rank cs ∈ (assess_proposal p env).2) :
    ((assess_proposal p env).1).risks =
      List.replicate TOP_N_RISKS
        (errorAssessment
          ("Expected " ++ toString TOP_N_RISKS ++ " risks, got " ++ toString xs.length)) := by
  have hall : ∀ cs, rank_and_select cs env.rankOutcome =
      .error ("Expected " ++ toString TOP_N_RISKS ++ " risks, got " ++ toString xs.length) := by
    intro cs
    rw [hout]
    exact rank_count_mismatch hget hne cs
  have hreach2 : ∃ cs, Call.rank cs ∈ (assessStages p env).2 := by
    obtain ⟨cs, hcs⟩ := hreach
    rw [assess_trace_eq] at hcs
    exact ⟨cs, hcs⟩
  rw [assess_error_result_fst (assessStages_rank_error hall hreach2)]
  rfl

/-- C5 witness: the concrete run whose ranking reply carries two entries
degrades to the three ERROR sentinels with the count message. -/
theorem C5_count_mismatch_witness :
    ((assess_proposal {} envRankTwo).1).risks =
      List.replicate TOP_N_RISKS
        (errorAssessment
          ("Expected " ++ toString TOP_N_RISKS ++ " risks, got " ++
            toString [rankEntry "R.AIR.001" "a", rankEntry "R.AIR.002" "b"].length)) :=
  C5_count_mismatch {} envRankTwo
    [("risks", .arr [rankEntry "R.AIR.001" "a", rankEntry "R.AIR.002" "b"])]
    [rankEntry "R.AIR.001" "a", rankEntry "R.AIR.002" "b"]
    (by rfl) (by rfl) (by simp [TOP_N_RISKS])
    ⟨[cxRiskA, cxRiskB], by
      rw [show (assess_proposal {} envRankTwo).2 =
        [Call.extract "", Call.search [.str "data privacy"], Call.rank [cxRiskA, cxRiskB]] from rfl]
      simp⟩

/-- C6 counterexample: a ranking reply repeating the same candidate
risk_id passes validation, so a successful call can carry non-distinct
ids. -/
theorem C6_duplicate_ids_cex :
    ∃ l, rank_and_select [cxRiskA, cxRiskB] rankReplyDup = .ok l ∧
      ¬ (l.map (fun rr => rr.risk_id)).Nodup := by
  refine ⟨[⟨"R.AIR.001", .str "applies to the training data"⟩,
           ⟨"R.AIR.002", .str "the model is exposed"⟩,
           ⟨"R.AIR.001", .str "also applies at inference"⟩], by rfl, ?_⟩
  simp

/-- C6 amended: a successful rank_and_select call returns exactly
TOP_N_RISKS validated entries, each referencing a candidate id from the
truncated candidate list, but the ids need not be pairwise distinct: a
reply repeating a candidate id passes validation. -/
theorem C6_entries_amended (risks : List Risk) (outcome : GenOutcome) (ranked : List RankedRisk)
    (h : rank_and_select risks outcome = .ok ranked) :
    ranked.length = TOP_N_RISKS ∧
    ∀ rr ∈ ranked, ∃ r ∈ risks.take MAX_CANDIDATE_RISKS, r.risk_id = rr.risk_id :=
  ⟨rank_ok_length h, rank_ok_mem_take h⟩

/-- C6 witness: the amended claim instantiated on the duplicate-id run. -/
theorem C6_entries_amended_witness :
    ([⟨"R.AIR.001", .str "applies to the training data"⟩,
      ⟨"R.AIR.002", .str "the model is exposed"⟩,
      ⟨"R.AIR.001", .str "also applies at inference"⟩] : List RankedRisk).length = TOP_N_RISKS ∧
    ∀ rr ∈ ([⟨"R.AIR.001", .str "applies to the training data"⟩,
      ⟨"R.AIR.002", .str "the model is exposed"⟩,
      ⟨"R.AIR.001", .str "also applies at inference"⟩] : List RankedRisk),
      ∃ r ∈ [cxRiskA, cxRiskB].take MAX_CANDIDATE_RISKS, r.risk_id = rr.risk_id :=
  C6_entries_amended [cxRiskA, cxRiskB] rankReplyDup _ (by rfl)

/-- C7: with more than 3 keywords, the queries the search sends are (an
initial segment of) exactly the first 3 keywords, sanitized, in order; and
with more than MAX_CANDIDATE_RISKS candidates the ranking call behaves
exactly as on the first MAX_CANDIDATE_RISKS candidates in their original
order. -/
theorem C7_truncation :
    (∀ (ks : List String) (replies : List (Except String (List SearchItem))),
        3 < ks.length →
        ∃ k, (search_risks (ks.map JsonVal.str) replies).sentQueries
            = ((ks.take 3).map sanitize_keyword).take k) ∧
    (∀ (risks : List Risk) (outcome : GenOutcome),
        MAX_CANDIDATE_RISKS < risks.length →
        rank_and_select risks outcome =
          rank_and_select (risks.take MAX_CANDIDATE_RISKS) outcome) := by
  constructor
  · intro ks replies _
    obtain ⟨k, hk⟩ := search_risks_sent ks replies
    exact ⟨k, by rw [hk, List.map_take]⟩
  · intro risks outcome _
    simp [rank_and_select, List.take_take]

/-- C7 witness: four keywords and thirty-one candidates instantiate both
truncation bounds. -/
theorem C7_truncation_witness :
    (∃ k, (search_risks (["a b", "c", "d", "e"].map JsonVal.str) [.ok [], .ok [], .ok []]).sentQueries
        = ((["a b", "c", "d", "e"].take 3).map sanitize_keyword).take k) ∧
    rank_and_select risks31 .notJson =
      rank_and_select (risks31.take MAX_CANDIDATE_RISKS) .notJson :=
  ⟨C7_truncation.1 ["a b", "c", "d", "e"] [.ok [], .ok [], .ok []] (by simp),
   C7_truncation.2 risks31 .notJson (by simp [risks31, MAX_CANDIDATE_RISKS])⟩

/-- C8 counterexample: a reply that parses with both required fields and a
non-empty keywords list still fails when the confidence value cannot be
converted to a float (here: null), refuting the claimed failure
characterization. -/
theorem C8_confidence_failure_cex :
    assocGet [("keywords", JsonVal.arr [.str "a"]), ("confidence", JsonVal.null)] "keywords"
      = some (.arr [.str "a"]) ∧
    extract_keywords (.json (.obj [("keywords", .arr [.str "a"]), ("confidence", .null)]))
      = .error "TypeError: float argument must be a string or a real number, not NoneType" :=
  ⟨by rfl, by rfl⟩

/-- C8 amended: for a reply parsing as JSON with both required fields,
extract_keywords succeeds exactly when the keywords value is a non-empty
list AND the confidence value converts under Python float; on success the
keywords are returned unchanged and the confidence is the converted value,
with no clamping or re-normalization. -/
theorem C8_extract_amended (kvs : List (String × JsonVal)) (kwv cv : JsonVal)
    (hk : assocGet kvs "keywords" = some kwv)
    (hc : assocGet kvs "confidence" = some cv) :
    ((∃ r, extract_keywords (.json (.obj kvs)) = .ok r) ↔
        ((∃ xs, kwv = .arr xs ∧ xs ≠ []) ∧ ∃ q, pyFloat cv = .ok q)) ∧
    (∀ r, extract_keywords (.json (.obj kvs)) = .ok r →
        kwv = .arr r.keywords ∧ pyFloat cv = .ok r.confidence) := by
  have hred := extract_obj_red hk hc
  constructor
  · constructor
    · rintro ⟨r, hr⟩
      rw [hred] at hr
      cases hf : pyFloat cv with
      | error e => rw [hf] at hr; cases hr
      | ok q =>
        rw [hf] at hr
        cases kwv with
        | arr xs =>
          dsimp only at hr
          by_cases hxs : xs.isEmpty
          · rw [if_pos hxs] at hr; cases hr
          · exact ⟨⟨xs, rfl, by simpa using hxs⟩, q, rfl⟩
        | null => cases hr
        | bool b => cases hr
        | num n => cases hr
        | str s => cases hr
        | obj o => cases hr
    · rintro ⟨⟨xs, hxe, hxne⟩, q, hq⟩
      subst hxe
      rw [hred, hq]
      dsimp only
      rw [if_neg (by simpa using hxne)]
      exact ⟨_, rfl⟩
  · intro r hr
    rw [hred] at hr
    cases hf : pyFloat cv with
    | error e => rw [hf] at hr; cases hr
    | ok q =>
      rw [hf] at hr
      cases kwv with
      | arr xs =>
        dsimp only at hr
        by_cases hxs : xs.isEmpty
        · rw [if_pos hxs] at hr; cases hr
        · rw [if_neg hxs] at hr
          cases hr
          exact ⟨rfl, rfl⟩
      | null => cases hr
      | bool b => cases hr
      | num n => cases hr
      | str s => cases hr
      | obj o => cases hr

/-- C8 witness: a reply with one keyword and confidence 1.5 (outside the
unit interval) succeeds with the confidence passed through unclamped. -/
theorem C8_extract_amended_witness :
    ((∃ r, extract_keywords
        (.json (.obj [("keywords", .arr [.str "k"]), ("confidence", .num (3 / 2))])) = .ok r) ↔
      ((∃ xs, JsonVal.arr [.str "k"] = .arr xs ∧ xs ≠ []) ∧
        ∃ q, pyFloat (.num (3 / 2)) = .ok q)) ∧
    (∀ r, extract_keywords
        (.json (.obj [("keywords", .arr [.str "k"]), ("confidence", .num (3 / 2))])) = .ok r →
      JsonVal.arr [.str "k"] = .arr r.keywords ∧ pyFloat (.num (3 / 2)) = .ok r.confidence) :=
  C8_extract_amended [("keywords", .arr [.str "k"]), ("confidence", .num (3 / 2))]
    (.arr [.str "k"]) (.num (3 / 2)) (by rfl) (by rfl)

/-- C9 counterexample: a proposal whose description is present but empty
produces no Description block at all, so the formatter does not emit every
present field. -/
theorem C9_empty_present_field_cex :
    format_proposal_text { description := some "" } = "" ∧
    ({ description := some "" } : Proposal).description ≠ none := by
  exact ⟨by rfl, by simp⟩

/-- C9 amended: the formatter is a pure total function equal to the spec
formatter amended on one point: a block is emitted exactly for the fields
present with a truthy (non-empty) value, in the fixed order with its
label, lists joined by commas, blocks separated by a blank line, and then
the additional fields in their given order. -/
theorem C9_formatter_amended (p : Proposal) :
    format_proposal_text p = spec_format_proposal_text p := by
  unfold format_proposal_text spec_format_proposal_text specBlocks
  rw [renderBlocks_append, renderBlocks_additional]
  simp only [renderBlocks_cons, fieldPart_eq, dataSourcesPart_eq]
  simp [renderBlocks, List.append_assoc]

/-- C10: every query string actually sent by search_risks is one of the
first 3 keywords with every character other than ASCII letters, digits,
whitespace, hyphens and underscores removed, truncated to at most 100
characters. -/
theorem C10_sanitized_queries (ks : List String) (replies : List (Except String (List SearchItem)))
    (q : String) (hq : q ∈ (search_risks (ks.map JsonVal.str) replies).sentQueries) :
    ∃ kw ∈ ks.take 3,
      q = String.mk ((kw.toList.filter sanitizeKeep).take 100) ∧ q.toList.length ≤ 100 := by
  obtain ⟨k, hk⟩ := search_risks_sent ks replies
  rw [hk] at hq
  have hq2 : q ∈ (ks.map sanitize_keyword).take 3 := List.take_subset _ _ hq
  rw [← List.map_take] at hq2
  obtain ⟨kw, hkw, hqe⟩ := List.mem_map.mp hq2
  refine ⟨kw, hkw, by rw [← hqe]; rfl, ?_⟩
  rw [← hqe]
  show (sanitize_keyword kw).toList.length ≤ 100
  simp [sanitize_keyword, List.length_take]

/-- C10 witness: an injection-laden keyword is sent sanitized. -/
theorem C10_sanitized_queries_witness :
    ∃ kw ∈ ["AI; DROP TABLE users--", "b", "c", "d"].take 3,
      "AI DROP TABLE users--" = String.mk ((kw.toList.filter sanitizeKeep).take 100) ∧
      ("AI DROP TABLE users--" : String).toList.length ≤ 100 :=
  C10_sanitized_queries ["AI; DROP TABLE users--", "b", "c", "d"] [.ok [], .ok [], .ok []]
    "AI DROP TABLE users--"
    (by rw [show (search_risks (["AI; DROP TABLE users--", "b", "c", "d"].map JsonVal.str)
        [.ok [], .ok [], .ok []]).sentQueries = ["AI DROP TABLE users--", "b", "c"] from rfl]
        simp)

end GeminiPlay
